import Mathlib

/-!
# Verification of the MikroTik security-monitor core

Shallow embedding of the detection engine of the MIKROTIK-API repository:

* `src/server/security-monitor.js` — the `SecurityMonitor` class
  (connection analyzer, bounded event/alert store, escalation logic);
* `src/unnamed/part_000` — the HTTP handlers that acknowledge events and
  dismiss alerts, operating on the monitor's logs;
* `src/server/index.js` — the periodic polling loop (`cron.schedule`).

JavaScript arrays become `List`, JS `Map` (insertion ordered) becomes an
association list with an insertion-ordered `bump` update, JS `Set` becomes an
insertion-ordered duplicate-free `List` with `setAdd`.  `crypto.randomUUID()`
is modelled by a fresh-`Nat` counter threaded through the state, and
`new Date().toISOString()` by an explicit `now : String` argument: both are
opaque to every piece of the analyzed logic.
-/

namespace MikroTik

/-- One entry of a device's connection snapshot (`ConnectionRecord`).
Fields mirror the objects produced by `MikroTikAPI.generateConnections`;
the analyzer reads `srcAddress`, `dstAddress`, `dstPort`, `protocol`, `risk`. -/
structure Conn where
  protocol : String
  srcAddress : String
  dstAddress : String
  srcPort : Nat
  dstPort : Nat
  state : String
  bytes : Nat
  packets : Nat
  risk : String
  deriving DecidableEq, Repr

/-- A detected security activity: in the source a plain JS object with a
`type` tag and a kind-dependent subset of the remaining fields (absent JS
fields are `none`). -/
structure Activity where
  type : String
  srcIP : String
  dstIP : Option String
  port : Option Nat
  protocol : Option String
  connectionCount : Option Nat
  deriving DecidableEq, Repr

/-- Result object of `performConnectionAnalysis`. -/
structure AnalysisResult where
  totalConnections : Nat
  uniqueIPs : Nat
  topPorts : List (Nat × Nat)
  suspiciousActivity : List Activity
  deriving DecidableEq, Repr

/-- A stored security event (`addSecurityEvent`'s object literal). -/
structure SecurityEvent where
  id : Nat
  deviceId : String
  timestamp : String
  type : String
  severity : String
  description : String
  details : Activity
  acknowledged : Bool
  deriving DecidableEq, Repr

/-- A stored security alert (`createAlert`'s object literal). -/
structure SecurityAlert where
  id : Nat
  timestamp : String
  severity : String
  title : String
  description : String
  deviceId : String
  eventId : Nat
  acknowledged : Bool
  resolved : Bool
  deriving DecidableEq, Repr

/-- The mutable fields of the `SecurityMonitor` instance, plus the
fresh-id counter standing in for `crypto.randomUUID()`. -/
structure MonitorState where
  events : List SecurityEvent
  alerts : List SecurityAlert
  suspiciousIPs : List String
  nextId : Nat
  deriving DecidableEq, Repr

/-- State of `new SecurityMonitor()`. -/
def initialState : MonitorState :=
  { events := [], alerts := [], suspiciousIPs := [], nextId := 0 }

/-- Constant `connectionThresholds.maxConnectionsPerIP` of the constructor. -/
def maxConnectionsPerIP : Nat := 100

/-- Insertion-ordered tally update: JS `map.set(k, (map.get(k) || 0) + 1)`.
A `Map` keeps keys in first-insertion order, so a fresh key is appended. -/
def bump {κ : Type} [DecidableEq κ] : List (κ × Nat) → κ → List (κ × Nat)
  | [], k => [(k, 1)]
  | (k', v) :: rest, k =>
      if k' = k then (k', v + 1) :: rest else (k', v) :: bump rest k

/-- JS `Set.prototype.add`: no-op on a present element, else append
(insertion order preserved, no duplicates). -/
def setAdd {α : Type} [DecidableEq α] (l : List α) (x : α) : List α :=
  if x ∈ l then l else l ++ [x]

/-- Insert one entry into a count-descending list, after every entry of
count `≥` its own: together with `isortDesc` this is the stable descending
sort that `Array.prototype.sort((a, b) => b[1] - a[1])` performs. -/
def insertDesc (x : Nat × Nat) : List (Nat × Nat) → List (Nat × Nat)
  | [] => [x]
  | y :: ys => if y.2 ≤ x.2 then x :: y :: ys else y :: insertDesc x ys

/-- Stable sort by count descending (ties keep original order). -/
def isortDesc : List (Nat × Nat) → List (Nat × Nat)
  | [] => []
  | x :: xs => insertDesc x (isortDesc xs)

/-- Source `SecurityMonitor.isSuspiciousPort`. -/
def isSuspiciousPort (port : Nat) : Bool :=
  port ∈ [1433, 3389, 5432, 6379, 23, 135, 139, 445, 4444, 5555, 6666, 31337, 12345]

/-- The `high_risk_connection` object pushed for a `risk === 'high'` connection. -/
def highRiskActivity (c : Conn) : Activity :=
  { type := "high_risk_connection", srcIP := c.srcAddress, dstIP := some c.dstAddress,
    port := some c.dstPort, protocol := some c.protocol, connectionCount := none }

/-- The `suspicious_port_access` object pushed for a suspicious destination port. -/
def suspPortActivity (c : Conn) : Activity :=
  { type := "suspicious_port_access", srcIP := c.srcAddress, dstIP := none,
    port := some c.dstPort, protocol := some c.protocol, connectionCount := none }

/-- The `connection_flooding` object pushed for an over-threshold source address. -/
def floodingActivity (ip : String) (count : Nat) : Activity :=
  { type := "connection_flooding", srcIP := ip, dstIP := none,
    port := none, protocol := none, connectionCount := some count }

/-- The flooding pass: `for (const [ip, count] of ipCounts.entries())`,
pushing one activity and adding the address to `suspiciousIPs` whenever
`count > maxConnectionsPerIP`. -/
def floodPass : List (String × Nat) → List String → List Activity × List String
  | [], susp => ([], susp)
  | (ip, count) :: rest, susp =>
      if count > maxConnectionsPerIP then
        let r := floodPass rest (setAdd susp ip)
        (floodingActivity ip count :: r.1, r.2)
      else
        floodPass rest susp

/-- Source `SecurityMonitor.performConnectionAnalysis`.  The `forEach` pass builds
`ipCounts`, `portCounts` and the per-connection activities; the flooding pass
then scans `ipCounts` and mutates `this.suspiciousIPs` (threaded here as the
second component). -/
def performConnectionAnalysis (suspiciousIPs : List String) (connections : List Conn) :
    AnalysisResult × List String :=
  let acc := connections.foldl
    (fun (acc : List (String × Nat) × List (Nat × Nat) × List Activity) conn =>
      let ipCounts := bump acc.1 conn.srcAddress
      let portCounts := bump acc.2.1 conn.dstPort
      let acts := acc.2.2
        ++ (if conn.risk = "high" then [highRiskActivity conn] else [])
        ++ (if isSuspiciousPort conn.dstPort then [suspPortActivity conn] else [])
      (ipCounts, portCounts, acts))
    ([], [], [])
  let flood := floodPass acc.1 suspiciousIPs
  ({ totalConnections := connections.length
     uniqueIPs := acc.1.length
     topPorts := (isortDesc acc.2.1).take 10
     suspiciousActivity := acc.2.2 ++ flood.1 }, flood.2)

/-- Source `SecurityMonitor.getSeverity` (fixed table, unknown kinds map to low). -/
def getSeverity (eventType : String) : String :=
  if eventType = "high_risk_connection" then "critical"
  else if eventType = "connection_flooding" then "high"
  else if eventType = "suspicious_port_access" then "medium"
  else if eventType = "unusual_traffic_pattern" then "low"
  else "low"

/-- Rendering of an absent (`undefined`) JS field inside a template string. -/
def optStr : Option String → String
  | none => "undefined"
  | some s => s

/-- Rendering of an absent numeric JS field inside a template string. -/
def optNat : Option Nat → String
  | none => "undefined"
  | some n => toString n

/-- Source `SecurityMonitor.getEventDescription` (templates keyed by activity kind). -/
def getEventDescription (a : Activity) : String :=
  if a.type = "high_risk_connection" then
    "High-risk connection detected from " ++ a.srcIP ++ " to " ++ optStr a.dstIP
      ++ ":" ++ optNat a.port
  else if a.type = "connection_flooding" then
    "Potential DDoS attack from " ++ a.srcIP ++ " with " ++ optNat a.connectionCount
      ++ " connections"
  else if a.type = "suspicious_port_access" then
    "Suspicious port " ++ optNat a.port ++ " accessed by " ++ a.srcIP
  else if a.type = "unusual_traffic_pattern" then
    "Unusual traffic pattern detected"
  else
    "Security event detected"

/-- The event object built at the top of `addSecurityEvent`. -/
def mkEvent (id : Nat) (deviceId : String) (now : String) (activity : Activity) :
    SecurityEvent :=
  { id, deviceId, timestamp := now, type := activity.type,
    severity := getSeverity activity.type,
    description := getEventDescription activity,
    details := activity, acknowledged := false }

/-- Title casing `event.type.replace(/_/g, ' ').toUpperCase()` (written over the
character list so that it evaluates by kernel reduction). -/
def titleize (s : String) : String :=
  String.mk (s.data.map (fun c => Char.toUpper (if c = '_' then ' ' else c)))

/-- The alert object built by `createAlert`. -/
def mkAlert (id : Nat) (event : SecurityEvent) (now : String) : SecurityAlert :=
  { id, timestamp := now, severity := event.severity,
    title := "Security Alert: " ++ titleize event.type,
    description := event.description, deviceId := event.deviceId,
    eventId := event.id, acknowledged := false, resolved := false }

/-- Source `SecurityMonitor.createAlert`: unshift, then `slice(0, 100)` when the
log exceeds 100 entries. -/
def createAlert (st : MonitorState) (event : SecurityEvent) (now : String) :
    MonitorState :=
  let alerts := mkAlert st.nextId event now :: st.alerts
  { st with
    alerts := if alerts.length > 100 then alerts.take 100 else alerts,
    nextId := st.nextId + 1 }

/-- Source `SecurityMonitor.addSecurityEvent`: build the event, unshift, truncate
to 1000, and escalate to `createAlert` when the severity is critical. -/
def addSecurityEvent (st : MonitorState) (deviceId : String) (activity : Activity)
    (now : String) : MonitorState :=
  let event := mkEvent st.nextId deviceId now activity
  let events := event :: st.events
  let st' : MonitorState :=
    { st with
      events := if events.length > 1000 then events.take 1000 else events,
      nextId := st.nextId + 1 }
  if event.severity = "critical" then createAlert st' event now else st'

/-- Source `SecurityMonitor.analyzeConnections`.  The analysis and the event
recording complete, then the call `this.checkForAlerts(deviceId, analysis)`
throws a `TypeError` — no such method exists on the class — so the returned
flag (always `true`) records that the call raises after mutating the state. -/
def analyzeConnections (st : MonitorState) (deviceId : String)
    (connections : List Conn) (now : String) : MonitorState × Bool :=
  let r := performConnectionAnalysis st.suspiciousIPs connections
  let st := { st with suspiciousIPs := r.2 }
  let st := r.1.suspiciousActivity.foldl
    (fun s a => addSecurityEvent s deviceId a now) st
  (st, true)

/-- Source `SecurityMonitor.getRecentEvents` (default limit 50 at call sites). -/
def getRecentEvents (st : MonitorState) (limit : Nat) : List SecurityEvent :=
  st.events.take limit

/-- Source `SecurityMonitor.getActiveAlerts`: `filter` returns a fresh array of
the unresolved alerts (sharing the alert objects with the log). -/
def getActiveAlerts (st : MonitorState) : List SecurityAlert :=
  st.alerts.filter (fun a => !a.resolved)

/-- Setting `event.acknowledged = true` on the first log entry with the given
id (the handler mutates the object found in the `slice` copy, which is the
same object stored in the log). -/
def setAckFirst : List SecurityEvent → Nat → List SecurityEvent
  | [], _ => []
  | e :: es, i =>
      if e.id = i then { e with acknowledged := true } :: es
      else e :: setAckFirst es i

/-- The `POST /api/security/events/:id/acknowledge` handler: it searches
`getRecentEvents()` — the 50 most recent events — and flips the flag on the
found object, answering 404 (here `false`) otherwise. -/
def acknowledgeEvent (st : MonitorState) (eventId : Nat) : MonitorState × Bool :=
  match (getRecentEvents st 50).find? (fun e => e.id = eventId) with
  | none => (st, false)
  | some _ => ({ st with events := setAckFirst st.events eventId }, true)

/-- The `DELETE /api/security/alerts/:id` handler: it looks the alert up in
`getActiveAlerts()` and splices it out of that array — but `filter` returned
a fresh temporary array, so the monitor's alert log is left untouched; only
the found/not-found boolean is observable. -/
def dismissAlert (st : MonitorState) (alertId : Nat) : MonitorState × Bool :=
  match (getActiveAlerts st).findIdx? (fun a => a.id = alertId) with
  | none => (st, false)
  | some _ => (st, true)

/-! ## Polling scheduler (`cron.schedule` in `src/server/index.js`)

Each tick iterates the registered devices sequentially with a per-device
`try`/`catch`.  `getSystemStatus` sets `this.uptime` on success; neither it
nor `getActiveConnections` ever touches `this.status` (only `connect()`
does, and the tick never calls `connect`).  The outcome of the two fallible
fetches for a device in one tick is an explicit `PollResult`. -/

/-- The fields of a `MikroTikAPI` device object the tick reads or writes. -/
structure Device where
  id : String
  status : String
  uptime : Option String
  deriving DecidableEq, Repr

/-- The slice of a `/rest/system/resource` response the tick consumes. -/
structure SysStatus where
  uptime : String
  deriving DecidableEq, Repr

/-- Outcome of the two awaited fetches for one device in one tick. -/
inductive PollResult where
  /-- Call `device.getSystemStatus()` threw. -/
  | statusFail
  /-- status succeeded, `device.getActiveConnections()` threw. -/
  | connsFail (status : SysStatus)
  /-- both fetches succeeded. -/
  | ok (status : SysStatus) (conns : List Conn)
  deriving DecidableEq, Repr

/-- The `console.error` line of the tick's `catch` block. -/
def errLog (deviceId : String) : String :=
  "Error monitoring device " ++ deviceId

/-- One loop iteration of the tick for one device: returns the updated
device object, monitor state, and the log lines emitted.  On the success
path `analyzeConnections` records the activities and then raises (the
missing `checkForAlerts`), so the `catch` logs there too and the broadcast
is never reached; on either fetch failure nothing is recorded. -/
def pollDevice (mon : MonitorState) (d : Device) (r : PollResult) (now : String) :
    Device × MonitorState × List String :=
  match r with
  | .statusFail => (d, mon, [errLog d.id])
  | .connsFail status => ({ d with uptime := some status.uptime }, mon, [errLog d.id])
  | .ok status conns =>
      let d := { d with uptime := some status.uptime }
      let mon := (analyzeConnections mon d.id conns now).1
      (d, mon, [errLog d.id])

/-- One scheduler tick: `for (const device of mikrotikDevices.values())`,
sequentially, each iteration in its own `try`/`catch`. -/
def tick : List (Device × PollResult) → MonitorState → String →
    List Device × MonitorState × List String
  | [], mon, _ => ([], mon, [])
  | (d, r) :: rest, mon, now =>
      let p := pollDevice mon d r now
      let t := tick rest p.2.1 now
      (p.1 :: t.1, t.2.1, p.2.2 ++ t.2.2)

/-- A store mutation reachable through the server's surface. -/
inductive StoreOp where
  | record (deviceId : String) (activity : Activity) (now : String)
  | acknowledge (eventId : Nat)
  | dismiss (alertId : Nat)
  deriving DecidableEq, Repr

/-- Apply one store operation. -/
def applyOp (st : MonitorState) : StoreOp → MonitorState
  | .record deviceId activity now => addSecurityEvent st deviceId activity now
  | .acknowledge i => (acknowledgeEvent st i).1
  | .dismiss i => (dismissAlert st i).1

/-- Run a sequence of store operations from the freshly constructed monitor. -/
def runOps (ops : List StoreOp) : MonitorState :=
  ops.foldl applyOp initialState

/-! ## Derived views of the analyzer

Spec-facing decompositions of `performConnectionAnalysis`'s single pass,
proven below to coincide with it. -/

/-- The activities the `forEach` body pushes for one connection. -/
def connActivities (c : Conn) : List Activity :=
  (if c.risk = "high" then [highRiskActivity c] else [])
    ++ (if isSuspiciousPort c.dstPort then [suspPortActivity c] else [])

/-- The per-source-address connection tally (`ipCounts`). -/
def tallySrc (conns : List Conn) : List (String × Nat) :=
  conns.foldl (fun m c => bump m c.srcAddress) []

/-- The per-destination-port connection tally (`portCounts`). -/
def tallyPort (conns : List Conn) : List (Nat × Nat) :=
  conns.foldl (fun m c => bump m c.dstPort) []

/-- Recursive lookup in a tally list (the value `map.get(k)` would return,
0 when absent). -/
def lookupCnt {κ : Type} [DecidableEq κ] : List (κ × Nat) → κ → Nat
  | [], _ => 0
  | (k', v) :: rest, k => if k' = k then v else lookupCnt rest k

/-! ## Concrete inputs used as test vectors -/

/-- A high-risk connection to port 3389 (spec §8 scenario). -/
def connHigh : Conn :=
  { protocol := "tcp", srcAddress := "10.0.0.5", dstAddress := "192.168.1.1",
    srcPort := 1000, dstPort := 3389, state := "established",
    bytes := 0, packets := 0, risk := "high" }

/-- A low-risk connection from a given source to a given port. -/
def connLow (src : String) (dport : Nat) : Conn :=
  { protocol := "tcp", srcAddress := src, dstAddress := "192.168.1.1",
    srcPort := 1000, dstPort := dport, state := "established",
    bytes := 0, packets := 0, risk := "low" }

/-- The critical-severity activity derived from `connHigh`. -/
def actHigh : Activity := highRiskActivity connHigh

/-- A medium-severity activity (suspicious port 23). -/
def actMed : Activity := suspPortActivity (connLow "10.0.0.5" 23)

/-- One recorded critical activity: yields event id 0 and alert id 1. -/
def opsCritical : List StoreOp := [.record "r1" actHigh "t0"]

/-- The store holding one critical event and its alert. -/
def stCritical : MonitorState := runOps opsCritical

/-- 51 recorded medium activities: event ids 50 (newest) down to 0 (oldest). -/
def opsFiftyOne : List StoreOp := List.replicate 51 (.record "r1" actMed "t0")

/-- The store holding 51 events, the oldest (id 0) beyond the 50 returned
by `getRecentEvents()`. -/
def stFiftyOne : MonitorState := runOps opsFiftyOne

/-! ## Store lemmas -/

theorem ite_take_eq_take {α : Type} (l : List α) (n : Nat) :
    (if l.length > n then l.take n else l) = l.take n := by
  split
  · rfl
  · exact (List.take_of_length_le (by omega)).symm

theorem createAlert_alerts (st : MonitorState) (event : SecurityEvent) (now : String) :
    (createAlert st event now).alerts = (mkAlert st.nextId event now :: st.alerts).take 100 := by
  simp only [createAlert]
  exact ite_take_eq_take _ 100

theorem createAlert_events (st : MonitorState) (event : SecurityEvent) (now : String) :
    (createAlert st event now).events = st.events := rfl

theorem addSecurityEvent_events (st : MonitorState) (deviceId : String)
    (activity : Activity) (now : String) :
    (addSecurityEvent st deviceId activity now).events
      = (mkEvent st.nextId deviceId now activity :: st.events).take 1000 := by
  simp only [addSecurityEvent]
  split
  · rw [createAlert_events]
    exact ite_take_eq_take _ 1000
  · exact ite_take_eq_take _ 1000

theorem addSecurityEvent_alerts (st : MonitorState) (deviceId : String)
    (activity : Activity) (now : String) :
    (addSecurityEvent st deviceId activity now).alerts
      = if getSeverity activity.type = "critical"
        then (mkAlert (st.nextId + 1) (mkEvent st.nextId deviceId now activity) now
                :: st.alerts).take 100
        else st.alerts := by
  simp only [addSecurityEvent]
  split
  next h =>
    rw [createAlert_alerts, if_pos (show getSeverity activity.type = "critical" from h)]
  next h =>
    rw [if_neg (show ¬getSeverity activity.type = "critical" from h)]

theorem acknowledgeEvent_alerts (st : MonitorState) (i : Nat) :
    (acknowledgeEvent st i).1.alerts = st.alerts := by
  unfold acknowledgeEvent
  split <;> rfl

theorem setAckFirst_length (l : List SecurityEvent) (i : Nat) :
    (setAckFirst l i).length = l.length := by
  induction l with
  | nil => rfl
  | cons e es ih => unfold setAckFirst; split <;> simp [ih]

theorem acknowledgeEvent_events_length (st : MonitorState) (i : Nat) :
    (acknowledgeEvent st i).1.events.length = st.events.length := by
  unfold acknowledgeEvent
  split
  · rfl
  · simp [setAckFirst_length]

theorem dismissAlert_state (st : MonitorState) (i : Nat) :
    (dismissAlert st i).1 = st := by
  unfold dismissAlert
  split <;> rfl

/-- Both capacity bounds, as a state predicate. -/
def StoreBounded (st : MonitorState) : Prop :=
  st.events.length ≤ 1000 ∧ st.alerts.length ≤ 100

theorem bounded_step (st : MonitorState) (op : StoreOp) (h : StoreBounded st) :
    StoreBounded (applyOp st op) := by
  obtain ⟨he, ha⟩ := h
  cases op with
  | record deviceId activity now =>
    constructor
    · rw [applyOp, addSecurityEvent_events]
      exact List.length_take_le _ _
    · rw [applyOp, addSecurityEvent_alerts]
      split
      · exact List.length_take_le _ _
      · exact ha
  | acknowledge i =>
    exact ⟨by rw [applyOp, acknowledgeEvent_events_length]; exact he,
           by rw [applyOp, acknowledgeEvent_alerts]; exact ha⟩
  | dismiss i =>
    rw [applyOp, dismissAlert_state]; exact ⟨he, ha⟩

theorem bounded_foldl (ops : List StoreOp) :
    ∀ st, StoreBounded st → StoreBounded (ops.foldl applyOp st) := by
  induction ops with
  | nil => exact fun st h => h
  | cons op rest ih => exact fun st h => ih _ (bounded_step st op h)

/-- Every alert in the log has severity critical, as a state predicate. -/
def AlertsCritical (st : MonitorState) : Prop :=
  ∀ a ∈ st.alerts, a.severity = "critical"

theorem alerts_critical_step (st : MonitorState) (op : StoreOp)
    (h : AlertsCritical st) : AlertsCritical (applyOp st op) := by
  cases op with
  | record deviceId activity now =>
    intro a ha
    rw [applyOp, addSecurityEvent_alerts] at ha
    by_cases hc : getSeverity activity.type = "critical"
    · rw [if_pos hc] at ha
      rcases List.mem_cons.mp (List.take_subset _ _ ha) with h1 | h2
      · subst h1
        show (mkEvent st.nextId deviceId now activity).severity = "critical"
        exact hc
      · exact h a h2
    · rw [if_neg hc] at ha
      exact h a ha
  | acknowledge i =>
    intro a ha
    rw [applyOp, acknowledgeEvent_alerts] at ha
    exact h a ha
  | dismiss i =>
    rw [applyOp, dismissAlert_state]
    exact h

theorem alerts_critical_foldl (ops : List StoreOp) :
    ∀ st, AlertsCritical st → AlertsCritical (ops.foldl applyOp st) := by
  induction ops with
  | nil => exact fun st h => h
  | cons op rest ih => exact fun st h => ih _ (alerts_critical_step st op h)

/-! ## Lemmas about the acknowledge handler -/

theorem setAckFirst_map_id (l : List SecurityEvent) (i : Nat) :
    (setAckFirst l i).map (fun e => e.id) = l.map (fun e => e.id) := by
  induction l with
  | nil => rfl
  | cons e es ih => unfold setAckFirst; split <;> simp [ih]

theorem setAckFirst_setAckFirst (l : List SecurityEvent) (i : Nat) :
    setAckFirst (setAckFirst l i) i = setAckFirst l i := by
  induction l with
  | nil => rfl
  | cons e es ih =>
    by_cases h : e.id = i
    · simp [setAckFirst, h]
    · simp [setAckFirst, h, ih]

theorem setAckFirst_mem (l : List SecurityEvent) (i : Nat)
    (h : i ∈ l.map (fun e => e.id)) :
    ∃ e ∈ setAckFirst l i, e.id = i ∧ e.acknowledged = true := by
  induction l with
  | nil => simp at h
  | cons e es ih =>
    by_cases he : e.id = i
    · exact ⟨{ e with acknowledged := true }, by simp [setAckFirst, he], he, rfl⟩
    · have : i ∈ es.map (fun e => e.id) := by
        rcases List.mem_map.mp h with ⟨x, hx, hxi⟩
        rcases List.mem_cons.mp hx with h1 | h2
        · exact absurd (h1 ▸ hxi) he
        · exact List.mem_map.mpr ⟨x, h2, hxi⟩
      rcases ih this with ⟨f, hf, hfi, hfa⟩
      exact ⟨f, by simp [setAckFirst, he, hf], hfi, hfa⟩

theorem acknowledgeEvent_found (st : MonitorState) (i : Nat)
    (h : i ∈ (st.events.take 50).map (fun e => e.id)) :
    acknowledgeEvent st i = ({ st with events := setAckFirst st.events i }, true) := by
  unfold acknowledgeEvent
  rcases hf : (getRecentEvents st 50).find? (fun e => decide (e.id = i)) with _ | e
  · rw [List.find?_eq_none] at hf
    rcases List.mem_map.mp h with ⟨x, hx, hxi⟩
    exact absurd (by simpa using hxi) (by simpa using hf x hx)
  · rw [hf]

theorem acknowledgeEvent_not_found (st : MonitorState) (i : Nat)
    (h : i ∉ (st.events.take 50).map (fun e => e.id)) :
    acknowledgeEvent st i = (st, false) := by
  unfold acknowledgeEvent
  rcases hf : (getRecentEvents st 50).find? (fun e => decide (e.id = i)) with _ | e
  · rw [hf]
  · have := List.find?_some hf
    have hmem := List.mem_of_find?_eq_some hf
    exact absurd (List.mem_map.mpr ⟨e, hmem, by simpa using this⟩) h

/-! ## Claim theorems (store) -/

/-- C1: after any sequence of store operations the event log holds at most
1000 entries and the alert log at most 100; each insertion prepends the new
entry and truncates to the capacity, so the entries dropped are exactly the
ones at the tail of the most-recent-first list. -/
theorem event_alert_log_bounds (ops : List StoreOp) (st : MonitorState)
    (deviceId : String) (activity : Activity) (event : SecurityEvent) (now : String) :
    (runOps ops).events.length ≤ 1000
    ∧ (runOps ops).alerts.length ≤ 100
    ∧ (addSecurityEvent st deviceId activity now).events
        = (mkEvent st.nextId deviceId now activity :: st.events).take 1000
    ∧ (createAlert st event now).alerts
        = (mkAlert st.nextId event now :: st.alerts).take 100 :=
  ⟨(bounded_foldl ops initialState ⟨by simp [initialState], by simp [initialState]⟩).1,
   (bounded_foldl ops initialState ⟨by simp [initialState], by simp [initialState]⟩).2,
   addSecurityEvent_events st deviceId activity now,
   createAlert_alerts st event now⟩

/-- C2: recording an activity creates an alert exactly when the derived
severity is critical, and then exactly one alert is prepended (modulo the
100-capacity truncation), with its severity copied from the triggering event
and its `eventId` equal to that event's id. -/
theorem alert_iff_critical (st : MonitorState) (deviceId : String)
    (activity : Activity) (now : String) :
    (getSeverity activity.type = "critical" →
      (addSecurityEvent st deviceId activity now).alerts
        = (mkAlert (st.nextId + 1) (mkEvent st.nextId deviceId now activity) now
            :: st.alerts).take 100
      ∧ (mkAlert (st.nextId + 1) (mkEvent st.nextId deviceId now activity) now).severity
          = (mkEvent st.nextId deviceId now activity).severity
      ∧ (mkAlert (st.nextId + 1) (mkEvent st.nextId deviceId now activity) now).eventId
          = (mkEvent st.nextId deviceId now activity).id)
    ∧ (getSeverity activity.type ≠ "critical" →
      (addSecurityEvent st deviceId activity now).alerts = st.alerts) := by
  constructor
  · intro h
    exact ⟨by rw [addSecurityEvent_alerts, if_pos h], rfl, rfl⟩
  · intro h
    rw [addSecurityEvent_alerts, if_neg h]

/-- Witness for C2 at a concrete critical activity on the fresh store. -/
theorem alert_iff_critical_witness :
    (addSecurityEvent initialState "r1" actHigh "t0").alerts
      = (mkAlert 1 (mkEvent 0 "r1" "t0" actHigh) "t0" :: []).take 100 :=
  ((alert_iff_critical initialState "r1" actHigh "t0").1 (by decide)).1

/-- C10: every alert ever stored has severity critical, hence the number of
critical active alerts equals the number of all active alerts. -/
theorem alerts_always_critical (ops : List StoreOp) :
    (∀ a ∈ (runOps ops).alerts, a.severity = "critical")
    ∧ ((getActiveAlerts (runOps ops)).filter
          (fun a => a.severity = "critical")).length
        = (getActiveAlerts (runOps ops)).length := by
  have h : AlertsCritical (runOps ops) :=
    alerts_critical_foldl ops initialState (by intro a ha; simp [initialState] at ha)
  refine ⟨h, ?_⟩
  rw [List.filter_eq_self.mpr]
  intro a ha
  exact decide_eq_true (h a (List.mem_of_mem_filter ha))

/-- Witness for C10: the alert created by the one critical record. -/
theorem alerts_always_critical_witness :
    (mkAlert 1 (mkEvent 0 "r1" "t0" actHigh) "t0").severity = "critical" :=
  (alerts_always_critical opsCritical).1 _ (by decide)

/-- C3 (code bug): dismissing the alert with id 1 — present and unresolved in
`stCritical` — reports success, yet the store is unchanged and the alert is
still reported by `getActiveAlerts`: the handler splices the temporary array
returned by `filter`, not the monitor's alert log. -/
theorem dismissAlert_leaves_alert_active :
    (dismissAlert stCritical 1).2 = true
    ∧ (dismissAlert stCritical 1).1 = stCritical
    ∧ (getActiveAlerts (dismissAlert stCritical 1).1).map (fun a => a.id) = [1] := by
  refine ⟨by decide, dismissAlert_state _ _, by decide⟩

/-- C7: the connection analyzer is deterministic — two runs on the same
suspicious-IP set and connection snapshot return the same result. -/
theorem performConnectionAnalysis_deterministic (susp : List String)
    (conns : List Conn) (r₁ r₂ : AnalysisResult × List String)
    (h₁ : r₁ = performConnectionAnalysis susp conns)
    (h₂ : r₂ = performConnectionAnalysis susp conns) : r₁ = r₂ := by
  rw [h₁, h₂]

/-- Witness for C7 on a concrete snapshot. -/
theorem performConnectionAnalysis_deterministic_witness :
    performConnectionAnalysis [] [connHigh]
      = performConnectionAnalysis [] [connHigh] :=
  performConnectionAnalysis_deterministic [] [connHigh] _ _ rfl rfl

/-- C4 (amended): acknowledging an event whose id lies among the 50 most
recent events reports success, sets the acknowledged flag of the first log
entry with that id, and is idempotent; for any other id — in particular any
id absent from the log — it reports failure and leaves the store unchanged.
(The handler searches `getRecentEvents()` with its default limit of 50, so
older events in the log cannot be acknowledged.) -/
theorem acknowledgeEvent_spec (st : MonitorState) (i : Nat) :
    (i ∈ (st.events.take 50).map (fun e => e.id) →
      (acknowledgeEvent st i).2 = true
      ∧ (acknowledgeEvent st i).1.events = setAckFirst st.events i
      ∧ (∃ e ∈ (acknowledgeEvent st i).1.events, e.id = i ∧ e.acknowledged = true)
      ∧ acknowledgeEvent (acknowledgeEvent st i).1 i = ((acknowledgeEvent st i).1, true))
    ∧ (i ∉ (st.events.take 50).map (fun e => e.id) →
      acknowledgeEvent st i = (st, false)) := by
  constructor
  · intro h
    have hi : i ∈ st.events.map (fun e => e.id) := by
      rw [List.map_take] at h
      exact List.take_subset _ _ h
    rw [acknowledgeEvent_found st i h]
    refine ⟨rfl, rfl, setAckFirst_mem st.events i hi, ?_⟩
    have h' : i ∈ (((⟨setAckFirst st.events i, st.alerts, st.suspiciousIPs,
        st.nextId⟩ : MonitorState)).events.take 50).map (fun e => e.id) := by
      show i ∈ ((setAckFirst st.events i).take 50).map (fun e => e.id)
      rw [List.map_take, setAckFirst_map_id, ← List.map_take]
      exact h
    rw [acknowledgeEvent_found _ i h']
    simp [setAckFirst_setAckFirst]
  · exact acknowledgeEvent_not_found st i

set_option maxRecDepth 100000

/-- Witness for C4 at the newest event of the 51-entry store. -/
theorem acknowledgeEvent_spec_witness :
    (acknowledgeEvent stFiftyOne 50).2 = true
    ∧ acknowledgeEvent (acknowledgeEvent stFiftyOne 50).1 50
        = ((acknowledgeEvent stFiftyOne 50).1, true) :=
  ⟨((acknowledgeEvent_spec stFiftyOne 50).1 (by decide)).1,
   ((acknowledgeEvent_spec stFiftyOne 50).1 (by decide)).2.2.2⟩

/-- C4 counterexample: event id 0 is present in the 51-entry log, yet the
handler — searching only the 50 most recent events — answers not-found and
leaves the store unchanged, refuting totality over the event log. -/
theorem acknowledgeEvent_misses_old_event :
    (0 ∈ stFiftyOne.events.map (fun e => e.id))
    ∧ acknowledgeEvent stFiftyOne 0 = (stFiftyOne, false) := by
  exact ⟨by decide, acknowledgeEvent_not_found stFiftyOne 0 (by decide)⟩

/-- A device whose last poll succeeded. -/
def devConnected : Device := { id := "r1", status := "connected", uptime := none }

/-- C9 counterexample: a tick in which the device's status fetch fails leaves
its status at "connected" — the loop's `catch` only logs, it never sets the
status to "error" — while logging the failure and recording no activities. -/
theorem tick_fetch_failure_status_unchanged :
    (tick [(devConnected, .statusFail)] initialState "t0").1 = [devConnected]
    ∧ devConnected.status = "connected"
    ∧ ¬devConnected.status = "error"
    ∧ (tick [(devConnected, .statusFail)] initialState "t0").2.1 = initialState
    ∧ (tick [(devConnected, .statusFail)] initialState "t0").2.2 = [errLog "r1"] := by
  decide

/-! ## Analyzer lemmas: tallies -/

theorem mem_setAdd {α : Type} [DecidableEq α] {l : List α} {x a : α} :
    a ∈ setAdd l x ↔ a ∈ l ∨ a = x := by
  unfold setAdd
  split
  next h => simp only [iff_self_or]; rintro rfl; exact h
  next h => simp

theorem subset_setAdd {α : Type} [DecidableEq α] (l : List α) (x : α) :
    l ⊆ setAdd l x := fun _ ha => mem_setAdd.mpr (Or.inl ha)

theorem mem_setAdd_self {α : Type} [DecidableEq α] (l : List α) (x : α) :
    x ∈ setAdd l x := mem_setAdd.mpr (Or.inr rfl)

theorem nodup_setAdd {α : Type} [DecidableEq α] {l : List α} (x : α)
    (h : l.Nodup) : (setAdd l x).Nodup := by
  unfold setAdd
  split
  · exact h
  · next hx => simpa using List.Nodup.append h (by simp) (by simpa using hx)

theorem mem_foldl_setAdd {α : Type} [DecidableEq α] (xs : List α) :
    ∀ (l : List α) (a : α), a ∈ xs.foldl setAdd l ↔ a ∈ l ∨ a ∈ xs := by
  induction xs with
  | nil => simp
  | cons x xs ih =>
    intro l a
    rw [List.foldl_cons, ih, mem_setAdd]
    simp only [List.mem_cons]
    tauto

theorem nodup_foldl_setAdd {α : Type} [DecidableEq α] (xs : List α) :
    ∀ (l : List α), l.Nodup → (xs.foldl setAdd l).Nodup := by
  induction xs with
  | nil => exact fun l h => h
  | cons x xs ih => exact fun l h => ih _ (nodup_setAdd x h)

theorem bump_keys {κ : Type} [DecidableEq κ] (m : List (κ × Nat)) (k : κ) :
    (bump m k).map Prod.fst = setAdd (m.map Prod.fst) k := by
  induction m with
  | nil => rfl
  | cons p rest ih =>
    obtain ⟨k', v⟩ := p
    by_cases h : k' = k
    · subst h
      simp [bump, setAdd]
    · simp only [bump, if_neg h, List.map_cons, ih, setAdd]
      by_cases hk : k ∈ rest.map Prod.fst
      · rw [if_pos hk, if_pos (by simp [hk])]
      · rw [if_neg hk, if_neg (by simp [hk, Ne.symm h])]
        simp

theorem bump_lookupCnt {κ : Type} [DecidableEq κ] (m : List (κ × Nat)) (k' k : κ) :
    lookupCnt (bump m k') k
      = if k = k' then lookupCnt m k + 1 else lookupCnt m k := by
  induction m with
  | nil =>
    by_cases h : k = k'
    · subst h; simp [bump, lookupCnt]
    · have h' : ¬k' = k := fun hh => h hh.symm
      simp [bump, lookupCnt, h, h']
  | cons p rest ih =>
    obtain ⟨a, v⟩ := p
    by_cases ha : a = k'
    · subst ha
      by_cases hk : a = k
      · subst hk; simp [bump, lookupCnt]
      · have hk' : ¬k = a := fun hh => hk hh.symm
        simp [bump, lookupCnt, hk, hk']
    · by_cases hk : a = k
      · subst hk
        simp [bump, lookupCnt, ha]
      · simp [bump, lookupCnt, ha, hk, ih]

theorem tally_foldl_lookupCnt {κ : Type} [DecidableEq κ] (key : Conn → κ)
    (conns : List Conn) :
    ∀ (m : List (κ × Nat)) (k : κ),
      lookupCnt (conns.foldl (fun m c => bump m (key c)) m) k
        = lookupCnt m k + (conns.filter (fun c => key c = k)).length := by
  induction conns with
  | nil => simp
  | cons c cs ih =>
    intro m k
    rw [List.foldl_cons, ih, bump_lookupCnt]
    by_cases h : key c = k
    · rw [if_pos h.symm, List.filter_cons_of_pos (by simpa using h)]
      simp; omega
    · rw [if_neg (fun h' => h h'.symm), List.filter_cons_of_neg (by simpa using h)]

theorem tally_foldl_keys {κ : Type} [DecidableEq κ] (key : Conn → κ)
    (conns : List Conn) :
    ∀ (m : List (κ × Nat)),
      (conns.foldl (fun m c => bump m (key c)) m).map Prod.fst
        = (conns.map key).foldl setAdd (m.map Prod.fst) := by
  induction conns with
  | nil => simp
  | cons c cs ih =>
    intro m
    rw [List.foldl_cons, ih, bump_keys, List.map_cons, List.foldl_cons]

/-- In a tally with duplicate-free keys, membership of a pair is membership
of the key carrying the looked-up value. -/
theorem mem_assoc_iff {κ : Type} [DecidableEq κ] (m : List (κ × Nat))
    (hm : (m.map Prod.fst).Nodup) (k : κ) (n : Nat) :
    (k, n) ∈ m ↔ k ∈ m.map Prod.fst ∧ lookupCnt m k = n := by
  induction m with
  | nil => simp
  | cons p rest ih =>
    obtain ⟨a, v⟩ := p
    rw [List.map_cons, List.nodup_cons] at hm
    by_cases hk : a = k
    · subst hk
      constructor
      · intro h
        rcases List.mem_cons.mp h with h | h
        · have hnv : n = v := ((Prod.mk.injEq _ _ _ _).mp h).2
          subst hnv
          exact ⟨by simp, by simp [lookupCnt]⟩
        · exact absurd (List.mem_map.mpr ⟨(a, n), h, rfl⟩) hm.1
      · rintro ⟨-, h2⟩
        simp only [lookupCnt, if_pos rfl] at h2
        subst h2
        exact List.mem_cons_self _ _
    · have hk' : ¬(k, n) = (a, v) := by
        intro h
        exact hk ((Prod.mk.injEq _ _ _ _).mp h).1.symm
      simp only [List.mem_cons, List.map_cons, lookupCnt,
        if_neg hk, hk', false_or]
      rw [ih hm.2]
      constructor
      · rintro ⟨h1, h2⟩
        exact ⟨Or.inr h1, h2⟩
      · rintro ⟨h1 | h1, h2⟩
        · exact absurd h1.symm hk
        · exact ⟨h1, h2⟩

/-- Entries of a duplicate-free tally filtered on one key. -/
theorem filter_key_eq {κ : Type} [DecidableEq κ] (m : List (κ × Nat))
    (hm : (m.map Prod.fst).Nodup) (k : κ) :
    m.filter (fun p => p.1 = k)
      = if k ∈ m.map Prod.fst then [(k, lookupCnt m k)] else [] := by
  induction m with
  | nil => simp
  | cons p rest ih =>
    obtain ⟨a, v⟩ := p
    rw [List.map_cons, List.nodup_cons] at hm
    by_cases hk : a = k
    · subst hk
      rw [List.filter_cons_of_pos (by simp)]
      rw [if_pos (by simp)]
      have hrest : rest.filter (fun p => p.1 = a) = [] := by
        rw [List.filter_eq_nil_iff]
        intro p hp hpa
        exact hm.1 (List.mem_map.mpr ⟨p, hp, by simpa using hpa⟩)
      rw [hrest]
      simp [lookupCnt]
    · rw [List.filter_cons_of_neg (by simpa using hk), ih hm.2]
      have : (k ∈ a :: rest.map Prod.fst) ↔ k ∈ rest.map Prod.fst := by
        simp only [List.mem_cons]
        constructor
        · rintro (h | h)
          · exact absurd h.symm hk
          · exact h
        · exact Or.inr
      rw [List.map_cons]
      by_cases hmem : k ∈ rest.map Prod.fst
      · rw [if_pos hmem, if_pos (this.mpr hmem)]
        simp [lookupCnt, hk]
      · rw [if_neg hmem, if_neg (fun h => hmem (this.mp h))]

/-! ## Analyzer lemmas: flooding pass -/

theorem floodPass_acts (m : List (String × Nat)) :
    ∀ susp, (floodPass m susp).1
      = (m.filter (fun p => p.2 > maxConnectionsPerIP)).map
          (fun p => floodingActivity p.1 p.2) := by
  induction m with
  | nil => intro susp; rfl
  | cons p rest ih =>
    intro susp
    obtain ⟨ip, count⟩ := p
    by_cases h : count > maxConnectionsPerIP
    · rw [floodPass, if_pos h, List.filter_cons_of_pos (by simpa using h), List.map_cons]
      simp only [ih]
    · rw [floodPass, if_neg h, List.filter_cons_of_neg (by simpa using h)]
      exact ih susp

theorem floodPass_susp_subset (m : List (String × Nat)) :
    ∀ susp, susp ⊆ (floodPass m susp).2 := by
  induction m with
  | nil => intro susp; exact fun a ha => ha
  | cons p rest ih =>
    intro susp
    obtain ⟨ip, count⟩ := p
    by_cases h : count > maxConnectionsPerIP
    · rw [floodPass, if_pos h]
      exact fun a ha => ih _ (subset_setAdd susp ip ha)
    · rw [floodPass, if_neg h]
      exact ih susp

theorem floodPass_susp_mem (m : List (String × Nat)) :
    ∀ susp ip n, (ip, n) ∈ m → n > maxConnectionsPerIP →
      ip ∈ (floodPass m susp).2 := by
  induction m with
  | nil => intro _ _ _ h; simp at h
  | cons p rest ih =>
    intro susp ip n hmem hn
    obtain ⟨a, v⟩ := p
    rcases List.mem_cons.mp hmem with h | h
    · obtain ⟨h1, h2⟩ := (Prod.mk.injEq _ _ _ _).mp h
      subst h1; subst h2
      rw [floodPass, if_pos hn]
      exact floodPass_susp_subset rest _ (mem_setAdd_self susp ip)
    · by_cases hv : v > maxConnectionsPerIP
      · rw [floodPass, if_pos hv]
        exact ih _ ip n h hn
      · rw [floodPass, if_neg hv]
        exact ih _ ip n h hn

/-! ## Analyzer lemmas: the single pass decomposed -/

theorem analysis_foldl (conns : List Conn) :
    ∀ (m : List (String × Nat)) (p : List (Nat × Nat)) (acts : List Activity),
    conns.foldl
      (fun (acc : List (String × Nat) × List (Nat × Nat) × List Activity) conn =>
        (bump acc.1 conn.srcAddress, bump acc.2.1 conn.dstPort,
         acc.2.2
           ++ (if conn.risk = "high" then [highRiskActivity conn] else [])
           ++ (if isSuspiciousPort conn.dstPort then [suspPortActivity conn] else [])))
      (m, p, acts)
      = (conns.foldl (fun m c => bump m c.srcAddress) m,
         conns.foldl (fun m c => bump m c.dstPort) p,
         acts ++ conns.flatMap connActivities) := by
  induction conns with
  | nil => intro m p acts; simp
  | cons c cs ih =>
    intro m p acts
    rw [List.foldl_cons, ih, List.foldl_cons, List.foldl_cons, List.flatMap_cons]
    simp [connActivities]

/-- Equation for `performConnectionAnalysis`, written with the two tallies, the
per-connection activities and the flooding pass separated out. -/
theorem performConnectionAnalysis_eq (susp : List String) (conns : List Conn) :
    performConnectionAnalysis susp conns
      = ({ totalConnections := conns.length,
           uniqueIPs := (tallySrc conns).length,
           topPorts := (isortDesc (tallyPort conns)).take 10,
           suspiciousActivity := conns.flatMap connActivities
             ++ (floodPass (tallySrc conns) susp).1 },
         (floodPass (tallySrc conns) susp).2) := by
  unfold performConnectionAnalysis tallySrc tallyPort
  rw [analysis_foldl]
  simp

/-! ## Analyzer lemmas: the stable descending sort -/

theorem insertDesc_perm (x : Nat × Nat) (l : List (Nat × Nat)) :
    List.Perm (insertDesc x l) (x :: l) := by
  induction l with
  | nil => exact List.Perm.refl _
  | cons y ys ih =>
    rw [insertDesc]
    split
    · exact List.Perm.refl _
    · exact ((ih.cons y).trans (List.Perm.swap x y ys))

theorem isortDesc_perm (l : List (Nat × Nat)) : List.Perm (isortDesc l) l := by
  induction l with
  | nil => exact List.Perm.refl _
  | cons x xs ih => exact (insertDesc_perm x (isortDesc xs)).trans (ih.cons x)

theorem insertDesc_sorted (x : Nat × Nat) (l : List (Nat × Nat))
    (h : l.Pairwise (fun a b => b.2 ≤ a.2)) :
    (insertDesc x l).Pairwise (fun a b => b.2 ≤ a.2) := by
  induction l with
  | nil => simp [insertDesc]
  | cons y ys ih =>
    rw [List.pairwise_cons] at h
    rw [insertDesc]
    split
    next hxy =>
      rw [List.pairwise_cons]
      refine ⟨?_, List.pairwise_cons.mpr h⟩
      intro z hz
      rcases List.mem_cons.mp hz with rfl | hz
      · exact hxy
      · exact le_trans (h.1 z hz) hxy
    next hxy =>
      rw [List.pairwise_cons]
      refine ⟨?_, ih h.2⟩
      intro z hz
      rcases List.mem_cons.mp ((insertDesc_perm x ys).mem_iff.mp hz) with h1 | h1
      · subst h1; omega
      · exact h.1 z h1

theorem isortDesc_sorted (l : List (Nat × Nat)) :
    (isortDesc l).Pairwise (fun a b => b.2 ≤ a.2) := by
  induction l with
  | nil => simp [isortDesc]
  | cons x xs ih => exact insertDesc_sorted x (isortDesc xs) ih

/-- Stability of the insertion step: the sublist of entries with a fixed
count is untouched except for the inserted element landing at its front. -/
theorem insertDesc_filter (x : Nat × Nat) (l : List (Nat × Nat)) (c : Nat) :
    (insertDesc x l).filter (fun p => p.2 = c)
      = if x.2 = c then x :: l.filter (fun p => p.2 = c)
        else l.filter (fun p => p.2 = c) := by
  induction l with
  | nil =>
    rw [insertDesc]
    by_cases h : x.2 = c
    · rw [if_pos h, List.filter_cons_of_pos (by simpa using h)]
    · rw [if_neg h, List.filter_cons_of_neg (by simpa using h)]
  | cons y ys ih =>
    rw [insertDesc]
    split
    next hxy =>
      by_cases h : x.2 = c
      · rw [if_pos h, List.filter_cons_of_pos (by simpa using h)]
      · rw [if_neg h, List.filter_cons_of_neg (by simpa using h)]
    next hxy =>
      by_cases hy : y.2 = c
      · have hx : ¬x.2 = c := by omega
        rw [if_neg hx, List.filter_cons_of_pos (by simpa using hy),
          List.filter_cons_of_pos (by simpa using hy), ih, if_neg hx]
      · rw [List.filter_cons_of_neg (by simpa using hy),
          List.filter_cons_of_neg (by simpa using hy), ih]

/-- Stability of the sort: entries of equal count keep their original
relative order. -/
theorem isortDesc_filter (l : List (Nat × Nat)) (c : Nat) :
    (isortDesc l).filter (fun p => p.2 = c) = l.filter (fun p => p.2 = c) := by
  induction l with
  | nil => rfl
  | cons x xs ih =>
    rw [isortDesc, insertDesc_filter]
    by_cases h : x.2 = c
    · rw [if_pos h, ih, List.filter_cons_of_pos (by simpa using h)]
    · rw [if_neg h, ih, List.filter_cons_of_neg (by simpa using h)]

/-! ## Analyzer lemmas: counting activities by kind -/

theorem count_high_risk (conns : List Conn) :
    ((conns.flatMap connActivities).filter
        (fun a => a.type = "high_risk_connection")).length
      = (conns.filter (fun c => c.risk = "high")).length := by
  induction conns with
  | nil => rfl
  | cons c cs ih =>
    rw [List.flatMap_cons, List.filter_append, List.length_append, ih, List.filter_cons]
    by_cases h : c.risk = "high" <;> by_cases h2 : isSuspiciousPort c.dstPort <;>
      simp [connActivities, h, h2, highRiskActivity, suspPortActivity] <;> omega

theorem count_susp_port (conns : List Conn) :
    ((conns.flatMap connActivities).filter
        (fun a => a.type = "suspicious_port_access")).length
      = (conns.filter (fun c => isSuspiciousPort c.dstPort)).length := by
  induction conns with
  | nil => rfl
  | cons c cs ih =>
    rw [List.flatMap_cons, List.filter_append, List.length_append, ih, List.filter_cons]
    by_cases h : c.risk = "high" <;> by_cases h2 : isSuspiciousPort c.dstPort <;>
      simp [connActivities, h, h2, highRiskActivity, suspPortActivity] <;> omega

theorem flood_map_filter_type (m : List (String × Nat)) (t : String)
    (ht : ¬t = "connection_flooding") :
    ((m.map (fun p => floodingActivity p.1 p.2)).filter (fun a => a.type = t)) = [] := by
  rw [List.filter_eq_nil_iff]
  intro a ha
  rcases List.mem_map.mp ha with ⟨p, _, rfl⟩
  simpa [floodingActivity] using fun h => ht h.symm

theorem flatMap_no_flooding (conns : List Conn) (q : Activity → Bool) :
    ((conns.flatMap connActivities).filter
        (fun a => a.type = "connection_flooding" && q a)) = [] := by
  rw [List.filter_eq_nil_iff]
  intro a ha
  rcases List.mem_flatMap.mp ha with ⟨c, _, hac⟩
  rw [connActivities] at hac
  rcases List.mem_append.mp hac with h | h
  · split at h
    · rcases List.mem_singleton.mp h with rfl
      simp [highRiskActivity]
    · simp at h
  · split at h
    · rcases List.mem_singleton.mp h with rfl
      simp [suspPortActivity]
    · simp at h

/-! ## Analyzer lemmas: the two tallies specialised -/

theorem tallySrc_keys_nodup (conns : List Conn) :
    ((tallySrc conns).map Prod.fst).Nodup := by
  rw [tallySrc, tally_foldl_keys]
  exact nodup_foldl_setAdd _ _ (by simp)

theorem mem_tallySrc_keys (conns : List Conn) (k : String) :
    k ∈ (tallySrc conns).map Prod.fst ↔ k ∈ conns.map (fun c => c.srcAddress) := by
  rw [tallySrc, tally_foldl_keys, mem_foldl_setAdd]
  simp

theorem tallySrc_lookupCnt (conns : List Conn) (k : String) :
    lookupCnt (tallySrc conns) k
      = (conns.filter (fun c => c.srcAddress = k)).length := by
  rw [tallySrc, tally_foldl_lookupCnt]
  simp [lookupCnt]

theorem tallyPort_keys_nodup (conns : List Conn) :
    ((tallyPort conns).map Prod.fst).Nodup := by
  rw [tallyPort, tally_foldl_keys]
  exact nodup_foldl_setAdd _ _ (by simp)

theorem tallyPort_lookupCnt (conns : List Conn) (k : Nat) :
    lookupCnt (tallyPort conns) k
      = (conns.filter (fun c => c.dstPort = k)).length := by
  rw [tallyPort, tally_foldl_lookupCnt]
  simp [lookupCnt]

/-- First-insertion-order characterisation of the port-tally keys. -/
theorem tallyPort_keys_order (conns : List Conn) :
    (tallyPort conns).map Prod.fst
      = (conns.map (fun c => c.dstPort)).foldl setAdd [] := by
  rw [tallyPort, tally_foldl_keys]
  rfl

/-- The per-connection activities never include a flooding activity, so any
predicate rejecting high-risk and suspicious-port activities filters the
`flatMap` part to nothing. -/
theorem flatMap_filter_nil (conns : List Conn) (p : Activity → Bool)
    (hp : ∀ c, p (highRiskActivity c) = false ∧ p (suspPortActivity c) = false) :
    (conns.flatMap connActivities).filter p = [] := by
  rw [List.filter_eq_nil_iff]
  intro a ha
  rcases List.mem_flatMap.mp ha with ⟨c, _, hac⟩
  rw [connActivities] at hac
  rcases List.mem_append.mp hac with h | h
  · split at h
    · rcases List.mem_singleton.mp h with rfl
      simp [(hp c).1]
    · simp at h
  · split at h
    · rcases List.mem_singleton.mp h with rfl
      simp [(hp c).2]
    · simp at h

theorem flood_map_filter_ip (m : List (String × Nat)) (ip : String) :
    ((m.map (fun p => floodingActivity p.1 p.2)).filter
        (fun a => a.type = "connection_flooding" ∧ a.srcIP = ip))
      = ((m.filter (fun p => p.1 = ip)).map (fun p => floodingActivity p.1 p.2)) := by
  induction m with
  | nil => rfl
  | cons p rest ih =>
    rw [List.map_cons, List.filter_cons, List.filter_cons]
    by_cases h : p.1 = ip
    · rw [if_pos (by simp [floodingActivity, h]), if_pos (by simpa using h),
        List.map_cons, ih]
    · rw [if_neg (by simp [floodingActivity, h]), if_neg (by simpa using h), ih]

/-! ## Claim theorems (analyzer) -/

/-- C5: the analyzer's activity list is exactly, in order, the
per-connection rule matches — one `high_risk_connection` for each high-risk
connection and, independently, one `suspicious_port_access` for each
connection hitting the fixed suspicious-port set, both for a connection
satisfying both — followed by the flooding activities; in particular the
number of high-risk (resp. suspicious-port) activities equals the number of
connections satisfying the corresponding condition. -/
theorem per_connection_activities (susp : List String) (conns : List Conn) :
    (performConnectionAnalysis susp conns).1.suspiciousActivity
      = conns.flatMap connActivities
        ++ ((tallySrc conns).filter (fun p => p.2 > maxConnectionsPerIP)).map
            (fun p => floodingActivity p.1 p.2)
    ∧ ((performConnectionAnalysis susp conns).1.suspiciousActivity.filter
          (fun a => a.type = "high_risk_connection")).length
        = (conns.filter (fun c => c.risk = "high")).length
    ∧ ((performConnectionAnalysis susp conns).1.suspiciousActivity.filter
          (fun a => a.type = "suspicious_port_access")).length
        = (conns.filter (fun c => isSuspiciousPort c.dstPort)).length := by
  rw [performConnectionAnalysis_eq]
  refine ⟨by rw [floodPass_acts], ?_, ?_⟩
  · show ((conns.flatMap connActivities
        ++ (floodPass (tallySrc conns) susp).1).filter _).length = _
    rw [floodPass_acts, List.filter_append, List.length_append, count_high_risk,
      flood_map_filter_type _ _ (by decide)]
    rfl
  · show ((conns.flatMap connActivities
        ++ (floodPass (tallySrc conns) susp).1).filter _).length = _
    rw [floodPass_acts, List.filter_append, List.length_append, count_susp_port,
      flood_map_filter_type _ _ (by decide)]
    rfl

/-- C6: for a source address tallying more than 100 connections in the
snapshot the analyzer emits exactly one `connection_flooding` activity for
it, carrying the exact tally, and adds it to the process-lifetime
suspicious-IP set; an address tallying at most 100 yields no flooding
activity; and the suspicious-IP set only ever grows. -/
theorem connection_flooding_exact (susp : List String) (conns : List Conn)
    (ip : String) :
    ((conns.filter (fun c => c.srcAddress = ip)).length > maxConnectionsPerIP →
      ((performConnectionAnalysis susp conns).1.suspiciousActivity.filter
          (fun a => a.type = "connection_flooding" ∧ a.srcIP = ip))
        = [floodingActivity ip (conns.filter (fun c => c.srcAddress = ip)).length]
      ∧ ip ∈ (performConnectionAnalysis susp conns).2)
    ∧ ((conns.filter (fun c => c.srcAddress = ip)).length ≤ maxConnectionsPerIP →
      ((performConnectionAnalysis susp conns).1.suspiciousActivity.filter
          (fun a => a.type = "connection_flooding" ∧ a.srcIP = ip)) = [])
    ∧ (∀ x ∈ susp, x ∈ (performConnectionAnalysis susp conns).2) := by
  have hkeys := tallySrc_keys_nodup conns
  have hfilter :
      ((performConnectionAnalysis susp conns).1.suspiciousActivity.filter
          (fun a => a.type = "connection_flooding" ∧ a.srcIP = ip))
        = (((tallySrc conns).filter (fun p => p.1 = ip)).filter
            (fun p => p.2 > maxConnectionsPerIP)).map
            (fun p => floodingActivity p.1 p.2) := by
    rw [performConnectionAnalysis_eq]
    show ((conns.flatMap connActivities
        ++ (floodPass (tallySrc conns) susp).1).filter _) = _
    rw [floodPass_acts, List.filter_append,
      flatMap_filter_nil conns _
        (fun c => ⟨by simp [highRiskActivity], by simp [suspPortActivity]⟩),
      flood_map_filter_ip, List.nil_append, List.filter_filter, List.filter_filter]
    refine congrArg _ (List.filter_congr ?_)
    intro p _
    rw [Bool.and_comm]
  refine ⟨?_, ?_, ?_⟩
  · intro hn
    have hsrc : ip ∈ conns.map (fun c => c.srcAddress) := by
      have hne : conns.filter (fun c => c.srcAddress = ip) ≠ [] := by
        intro h0
        rw [h0] at hn
        simp [maxConnectionsPerIP] at hn
      rcases List.exists_mem_of_ne_nil _ hne with ⟨c, hc⟩
      rcases List.mem_filter.mp hc with ⟨hc1, hc2⟩
      exact List.mem_map.mpr ⟨c, hc1, by simpa using hc2⟩
    have hk : ip ∈ (tallySrc conns).map Prod.fst := (mem_tallySrc_keys conns ip).mpr hsrc
    constructor
    · rw [hfilter, filter_key_eq _ hkeys, if_pos hk,
        List.filter_cons_of_pos (by simpa [tallySrc_lookupCnt] using hn),
        List.filter_nil, List.map_cons, List.map_nil, tallySrc_lookupCnt]
    · rw [performConnectionAnalysis_eq]
      show ip ∈ (floodPass (tallySrc conns) susp).2
      refine floodPass_susp_mem _ susp ip
        ((conns.filter (fun c => c.srcAddress = ip)).length) ?_ hn
      exact (mem_assoc_iff _ hkeys _ _).mpr ⟨hk, tallySrc_lookupCnt conns ip⟩
  · intro hn
    rw [hfilter, filter_key_eq _ hkeys]
    by_cases hk : ip ∈ (tallySrc conns).map Prod.fst
    · rw [if_pos hk,
        List.filter_cons_of_neg (by simpa [tallySrc_lookupCnt] using Nat.not_lt.mpr hn),
        List.filter_nil, List.map_nil]
    · rw [if_neg hk, List.filter_nil, List.map_nil]
  · intro x hx
    rw [performConnectionAnalysis_eq]
    exact floodPass_susp_subset _ susp hx

/-- 101 identical-source low-risk connections. -/
def floodSnapshot : List Conn := List.replicate 101 (connLow "9.9.9.9" 80)

/-- Witness for C6: on 101 connections from one address the flooding
activity fires exactly once with the exact tally, the address enters the
suspicious set, and an address below threshold yields nothing. -/
theorem connection_flooding_exact_witness :
    (((performConnectionAnalysis [] floodSnapshot).1.suspiciousActivity.filter
        (fun a => a.type = "connection_flooding" ∧ a.srcIP = "9.9.9.9"))
      = [floodingActivity "9.9.9.9"
          (floodSnapshot.filter (fun c => c.srcAddress = "9.9.9.9")).length]
    ∧ "9.9.9.9" ∈ (performConnectionAnalysis [] floodSnapshot).2)
    ∧ ((performConnectionAnalysis [] floodSnapshot).1.suspiciousActivity.filter
        (fun a => a.type = "connection_flooding" ∧ a.srcIP = "1.2.3.4")) = [] :=
  ⟨(connection_flooding_exact [] floodSnapshot "9.9.9.9").1 (by decide),
   (connection_flooding_exact [] floodSnapshot "1.2.3.4").2.1 (by decide)⟩

/-- C8: the analyzer is a total function whose aggregates satisfy:
`totalConnections` is the input length; `uniqueIPs` is the number of
distinct source addresses; `topPorts` is the first 10 of the stable
descending-by-count sort of the exact port tallies, whose keys are in
first-encounter order — so ties are broken by first-encountered port; and
the empty snapshot yields empty activities and zero aggregates. -/
theorem analysis_aggregates (susp : List String) (conns : List Conn) :
    (performConnectionAnalysis susp conns).1.totalConnections = conns.length
    ∧ (performConnectionAnalysis susp conns).1.uniqueIPs
        = (conns.map (fun c => c.srcAddress)).dedup.length
    ∧ (performConnectionAnalysis susp conns).1.topPorts
        = (isortDesc (tallyPort conns)).take 10
    ∧ List.Perm (isortDesc (tallyPort conns)) (tallyPort conns)
    ∧ (isortDesc (tallyPort conns)).Pairwise (fun a b => b.2 ≤ a.2)
    ∧ (∀ c, (isortDesc (tallyPort conns)).filter (fun p => p.2 = c)
          = (tallyPort conns).filter (fun p => p.2 = c))
    ∧ (∀ k n, (k, n) ∈ tallyPort conns
          → n = (conns.filter (fun c => c.dstPort = k)).length)
    ∧ ((tallyPort conns).map Prod.fst
          = (conns.map (fun c => c.dstPort)).foldl setAdd [])
    ∧ performConnectionAnalysis susp []
        = ({ totalConnections := 0, uniqueIPs := 0, topPorts := [],
             suspiciousActivity := [] }, susp) := by
  refine ⟨by rw [performConnectionAnalysis_eq], ?_,
    by rw [performConnectionAnalysis_eq], isortDesc_perm _, isortDesc_sorted _,
    isortDesc_filter _, ?_, tallyPort_keys_order conns, rfl⟩
  · rw [performConnectionAnalysis_eq]
    show (tallySrc conns).length = _
    have h1 : (tallySrc conns).length = ((tallySrc conns).map Prod.fst).length :=
      (List.length_map _ _).symm
    rw [h1]
    refine List.Perm.length_eq ?_
    rw [List.perm_ext_iff_of_nodup (tallySrc_keys_nodup conns) (List.nodup_dedup _)]
    intro a
    rw [mem_tallySrc_keys, List.mem_dedup]
  · intro k n h
    have := (mem_assoc_iff _ (tallyPort_keys_nodup conns) k n).mp h
    rw [← this.2, tallyPort_lookupCnt]

/-- Witness for C8 at a concrete snapshot: the tally entry for port 80. -/
theorem analysis_aggregates_witness :
    (1 : Nat) = ([connLow "a" 80].filter (fun c => c.dstPort = 80)).length :=
  (analysis_aggregates [] [connLow "a" 80]).2.2.2.2.2.2.1 80 1 (by decide)

/-- C9 (amended): a failing status or connection fetch logs the failure,
records no activities for that device, leaves its status field unchanged
(the tick never writes "error"), and the remaining devices are processed
exactly as they would be on their own. -/
theorem tick_failure_isolated (d : Device) (s : SysStatus)
    (rest : List (Device × PollResult)) (mon : MonitorState) (now : String) :
    tick ((d, .statusFail) :: rest) mon now
      = (d :: (tick rest mon now).1, (tick rest mon now).2.1,
         errLog d.id :: (tick rest mon now).2.2)
    ∧ tick ((d, .connsFail s) :: rest) mon now
      = ({ d with uptime := some s.uptime } :: (tick rest mon now).1,
         (tick rest mon now).2.1,
         errLog d.id :: (tick rest mon now).2.2)
    ∧ ({ d with uptime := some s.uptime } : Device).status = d.status :=
  ⟨rfl, rfl, rfl⟩

end MikroTik
